import Mathlib

/-!
Shallow embedding of `src/resolvers/Mutation.js` from the sick-fits backend:
GraphQL mutation resolvers for signup/signin/password-reset, item CRUD,
permission management and shopping-cart mutations.

Modelling conventions:
* JS strings, ids, emails and tokens are `String`; JS timestamps
  (`Date.now()` milliseconds) are `Int`.
* `bcrypt.hash(pw, 10)` is salted and non-deterministic; we model a hash as a
  record of the password, the cost factor and an externally supplied salt, and
  `bcrypt.compare` as password equality against the record.
* `jwt.sign({userId}, secret)` is modelled as a record of payload and secret;
  a cookie records name, token value, `httpOnly` and `maxAge`.
* The Prisma-style database handle is a state record of lists of entities.
  Unique-selector queries return the first match (`List.find?`); `update`/
  `delete` mutations act on the first match and fail when none exists,
  mirroring the ORM's record-not-found errors.
* Each resolver is a pure function from its arguments, the ambient request
  identity and the database state to a result (`Except` over the thrown JS
  error message strings, verbatim from the source) paired with the new
  database state.  Randomness (`randomBytes`), time (`Date.now()`) and the
  bcrypt salt enter as explicit parameters.
-/

namespace SickFits

/-- Model of a bcrypt digest: the hashed password together with the cost
factor and the random salt that went into the digest. -/
structure BcryptHash where
  pw : String
  cost : Nat
  salt : Nat
deriving DecidableEq, Repr

/-- Model of `bcrypt.hash(pw, cost)` with the random salt made explicit. -/
def bcryptHash (pw : String) (cost : Nat) (salt : Nat) : BcryptHash :=
  ⟨pw, cost, salt⟩

/-- Model of `bcrypt.compare(pw, digest)`. -/
def bcryptCompare (pw : String) (h : BcryptHash) : Bool :=
  pw == h.pw

/-- Model of a signed JSON web token carrying a `userId` payload. -/
structure Jwt where
  userId : String
  secret : String
deriving DecidableEq, Repr

/-- Model of `jwt.sign({ userId }, APP_SECRET)`. -/
def jwtSign (userId : String) (secret : String) : Jwt :=
  ⟨userId, secret⟩

/-- An HTTP cookie as set by `ctx.response.cookie(name, token, opts)`. -/
structure Cookie where
  name : String
  value : Jwt
  httpOnly : Bool
  maxAge : Nat
deriving DecidableEq, Repr

/-- The session cookie the resolvers set: name `token`, a signed JWT embedding
the user id, `httpOnly`, one-year `maxAge` (in milliseconds). -/
def sessionCookie (userId : String) (secret : String) : Cookie :=
  ⟨"token", jwtSign userId secret, true, 1000 * 60 * 60 * 24 * 365⟩

/-- One hexadecimal digit. -/
def hexDigit (n : Nat) : Char :=
  if n < 10 then Char.ofNat (48 + n) else Char.ofNat (87 + n)

/-- A byte rendered as two lowercase hex digits, as in Node's
`Buffer.toString("hex")`. -/
def byteToHex (b : Nat) : String :=
  String.mk [hexDigit (b / 16 % 16), hexDigit (b % 16)]

/-- Hex encoding of a byte sequence: `randomBytes(n).toString("hex")` with the
random bytes made an explicit parameter. -/
def hexEncode : List Nat → String
  | [] => ""
  | b :: bs => byteToHex b ++ hexEncode bs

/-- The ambient per-request caller identity `ctx.request.userId`: `none` when
no user is signed in (`undefined` in JS). -/
structure Request where
  userId : Option String
deriving DecidableEq, Repr

/-- A stored User record. -/
structure User where
  id : String
  email : String
  name : String
  password : BcryptHash
  permissions : List String
  resetToken : Option String
  resetTokenExpiry : Option Int
deriving DecidableEq, Repr

/-- A stored Item record: its id, the owning user (the `user` connect
relation) and the remaining scalar fields as a key-value map. -/
structure Item where
  id : String
  userId : Option String
  fields : List (String × String)
deriving DecidableEq, Repr

/-- A stored CartItem record joining a user and an item with a quantity. -/
structure CartItem where
  id : String
  userId : String
  itemId : String
  quantity : Nat
deriving DecidableEq, Repr

/-- The database state behind the Prisma-style handle, plus a counter from
which the store mints fresh record ids. -/
structure DB where
  users : List User
  items : List Item
  cartItems : List CartItem
  nextId : Nat
deriving DecidableEq, Repr

/-- Id generation by the external store, modelled from its counter. -/
def genId (n : Nat) : String :=
  "cid" ++ toString n

/-- Update the first element satisfying `p` with `f`; `none` when no element
matches (the ORM's record-not-found case). -/
def updateFirst (p : α → Bool) (f : α → α) : List α → Option (α × List α)
  | [] => none
  | x :: xs =>
    if p x then some (f x, f x :: xs)
    else
      match updateFirst p f xs with
      | none => none
      | some (y, ys) => some (y, x :: ys)

/-- Remove the first element satisfying `p`; `none` when no element
matches. -/
def removeFirst (p : α → Bool) : List α → Option (α × List α)
  | [] => none
  | x :: xs =>
    if p x then some (x, xs)
    else
      match removeFirst p xs with
      | none => none
      | some (y, ys) => some (y, x :: ys)

/-- Look up a key in a JS-object-style field map. -/
def lookupKey (k : String) (fs : List (String × String)) : Option String :=
  (fs.find? (fun kv => kv.1 == k)).map (fun kv => kv.2)

/-- Model of `delete obj.key`: drop the entries with the given key. -/
def deleteKey (k : String) (fs : List (String × String)) : List (String × String) :=
  fs.filter (fun kv => kv.1 != k)

/-- Overwrite one key in a field map, appending it when absent. -/
def setField : List (String × String) → String → String → List (String × String)
  | [], k, v => [(k, v)]
  | (k', v') :: rest, k, v =>
    if k' == k then (k, v) :: rest else (k', v') :: setField rest k v

/-- Apply an update payload to a record's field map, key by key. -/
def applyData (fs : List (String × String)) (data : List (String × String)) :
    List (String × String) :=
  data.foldl (fun acc kv => setField acc kv.1 kv.2) fs

/-- `ctx.db.query.user({ where: { email } })`. -/
def DB.userByEmail (db : DB) (email : String) : Option User :=
  db.users.find? (fun u => u.email == email)

/-- `ctx.db.query.user({ where: { id } })`. -/
def DB.userById (db : DB) (id : String) : Option User :=
  db.users.find? (fun u => u.id == id)

/-- `ctx.db.mutation.updateUser({ where: { email }, data })`: updates the
first user with that email, failing when none exists. -/
def DB.updateUserByEmail (db : DB) (email : String) (f : User → User) :
    Except String (User × DB) :=
  match updateFirst (fun u => u.email == email) f db.users with
  | none => .error "No Node for the model User with value found"
  | some (u, us) => .ok (u, { db with users := us })

/-- `ctx.db.mutation.updateUser({ where: { id }, data })`. -/
def DB.updateUserById (db : DB) (id : String) (f : User → User) :
    Except String (User × DB) :=
  match updateFirst (fun u => u.id == id) f db.users with
  | none => .error "No Node for the model User with value found"
  | some (u, us) => .ok (u, { db with users := us })

/-- `ctx.db.query.item({ where: { id } })`. -/
def DB.itemById (db : DB) (id : String) : Option Item :=
  db.items.find? (fun it => it.id == id)

/-- `ctx.db.mutation.updateItem({ where, data })`: the `where` selector is
`args.id`, which may be absent (`undefined`), and the data payload is a field
map applied to the matching record. -/
def DB.updateItemWhere (db : DB) (whereId : Option String)
    (data : List (String × String)) : (Except String Item) × DB :=
  match whereId with
  | none => (.error "You provided an invalid argument for the where selector", db)
  | some id =>
    match updateFirst (fun it => it.id == id) (fun it => { it with fields := applyData it.fields data }) db.items with
    | none => (.error "No Node for the model Item with value found", db)
    | some (it, items) => (.ok it, { db with items := items })

/-- `ctx.db.mutation.deleteItem({ where: { id } })`. -/
def DB.deleteItemWhere (db : DB) (id : String) : (Except String Item) × DB :=
  match removeFirst (fun it => it.id == id) db.items with
  | none => (.error "No Node for the model Item with value found", db)
  | some (it, items) => (.ok it, { db with items := items })

/-- `ctx.db.query.cartItem({ where: { id } })`. -/
def DB.cartItemById (db : DB) (id : String) : Option CartItem :=
  db.cartItems.find? (fun ci => ci.id == id)

/-- `ctx.db.mutation.updateCartItem({ where: { id }, data })`. -/
def DB.updateCartItemById (db : DB) (id : String) (f : CartItem → CartItem) :
    Except String (CartItem × DB) :=
  match updateFirst (fun ci => ci.id == id) f db.cartItems with
  | none => .error "No Node for the model CartItem with value found"
  | some (ci, cis) => .ok (ci, { db with cartItems := cis })

/-- `ctx.db.mutation.deleteCartItem({ where: { id } })`. -/
def DB.deleteCartItemWhere (db : DB) (id : String) : (Except String CartItem) × DB :=
  match removeFirst (fun ci => ci.id == id) db.cartItems with
  | none => (.error "No Node for the model CartItem with value found", db)
  | some (ci, cis) => (.ok ci, { db with cartItems := cis })

/-- The `where` clause of `resetPassword`'s user query: `resetToken` equals
the supplied token and `resetTokenExpiry_gte: Date.now() - 3600000` (a `null`
expiry never satisfies the `gte` filter). -/
def resetWhere (token : String) (now : Int) (u : User) : Bool :=
  u.resetToken == some token &&
    (match u.resetTokenExpiry with
     | some e => decide (now - 3600000 ≤ e)
     | none => false)

/-- Arguments of the `signup` mutation. -/
structure SignupArgs where
  email : String
  name : String
  password : String
deriving DecidableEq, Repr

/-- Arguments of the `resetPassword` mutation. -/
structure ResetArgs where
  resetToken : String
  password : String
  confirmPassword : String
deriving DecidableEq, Repr

/-- Modelled from the spec: `hasPermission` is imported from `src/utils.js`,
which is not among the provided sources.  Per the spec it "Requires the caller
to hold `ADMIN` AND `PERMISSIONUPDATE` capability (conjunctive check); fails
with PermissionDenied otherwise" — it throws on insufficient permissions and
returns nothing otherwise. -/
def hasPermission (user : User) (permissionsNeeded : List String) :
    Except String Unit :=
  if permissionsNeeded.all (fun p => user.permissions.contains p) then .ok ()
  else .error "You do not have sufficient permissions"

/-- The `signup` resolver.  `args.email.toLowerCase()` is computed and its
result discarded, exactly as in the source; the bcrypt salt and the store's
fresh id are explicit inputs.  The created user and the session cookie are
returned with the new database state (signup never throws in this model). -/
def signup (args : SignupArgs) (secret : String) (salt : Nat) (db : DB) :
    (User × Cookie) × DB :=
  let _lowered := args.email.toLower
  let password := bcryptHash args.password 10 salt
  let newUser : User :=
    { id := genId db.nextId
      email := args.email
      name := args.name
      password := password
      permissions := ["USER"]
      resetToken := none
      resetTokenExpiry := none }
  let db2 : DB := { db with users := db.users ++ [newUser], nextId := db.nextId + 1 }
  ((newUser, sessionCookie newUser.id secret), db2)

/-- The `signin` resolver.  The session cookie is part of the success value:
in the source, `ctx.response.cookie` is only reached after both checks pass,
so an error result means no cookie was set. -/
def signin (email : String) (password : String) (secret : String) (db : DB) :
    Except String (User × Cookie) :=
  match db.userByEmail email with
  | none => .error ("No such user found for email " ++ email)
  | some user =>
    if bcryptCompare password user.password then
      .ok (user, sessionCookie user.id secret)
    else
      .error "Invalid Password!"

/-- The `requestReset` resolver.  The 20 random bytes from
`randomBytes(20)` and the current time are explicit inputs; the token stored
is their hex encoding and the expiry is `Date.now() + 3600000`.  The mail
send is fire-and-forget and not modelled as state. -/
def requestReset (email : String) (randBytes : List Nat) (now : Int) (db : DB) :
    (Except String String) × DB :=
  match db.userByEmail email with
  | none => (.error ("No such user found for email " ++ email), db)
  | some _user =>
    let resetToken := hexEncode randBytes
    let resetTokenExpiry := now + 3600000
    match db.updateUserByEmail email
        (fun u => { u with resetToken := some resetToken,
                           resetTokenExpiry := some resetTokenExpiry }) with
    | .error e => (.error e, db)
    | .ok (_res, db2) => (.ok "Thank you!", db2)

/-- The `resetPassword` resolver.  The user query destructures the head of
`ctx.db.query.users` filtered by `resetWhere`; on success the matched user's
password is replaced and both reset fields are set to `null`. -/
def resetPassword (args : ResetArgs) (secret : String) (salt : Nat) (now : Int)
    (db : DB) : (Except String (User × Cookie)) × DB :=
  if args.password != args.confirmPassword then
    (.error "Your passwords don't match", db)
  else
    match (db.users.filter (resetWhere args.resetToken now)).head? with
    | none => (.error "This token is either invalid or expired!", db)
    | some user =>
      let password := bcryptHash args.password 10 salt
      match db.updateUserByEmail user.email
          (fun u => { u with password := password,
                             resetToken := none,
                             resetTokenExpiry := none }) with
      | .error e => (.error e, db)
      | .ok (updatedUser, db2) =>
        (.ok (updatedUser, sessionCookie updatedUser.id secret), db2)

/-- The `updatePermissions` resolver.  When the signed-in caller's own record
is absent the JS code would crash dereferencing `null` inside
`hasPermission`; that abnormal termination is modelled as a thrown error. -/
def updatePermissions (targetUserId : String) (perms : List String)
    (req : Request) (db : DB) : (Except String User) × DB :=
  match req.userId with
  | none => (.error "You must be logged in!", db)
  | some uid =>
    match db.userById uid with
    | none => (.error "TypeError: Cannot read properties of null", db)
    | some currentUser =>
      match hasPermission currentUser ["ADMIN", "PERMISSIONUPDATE"] with
      | .error e => (.error e, db)
      | .ok _ =>
        match db.updateUserById targetUserId
            (fun u => { u with permissions := perms }) with
        | .error e => (.error e, db)
        | .ok (u, db2) => (.ok u, db2)

/-- The `addToCart` resolver.  The existing-item query destructures the head
of `ctx.db.query.cartItems` filtered by `(user, item)`.  Modelled from the
spec for the create path: the CartItem datamodel (the schema file is not
among the provided sources) defaults `quantity` to 1, the "commonly 1"
backing-store default the spec describes, since `createCartItem`'s data
carries no quantity. -/
def addToCart (itemId : String) (req : Request) (db : DB) :
    (Except String CartItem) × DB :=
  match req.userId with
  | none => (.error "You must be signed in to add items!", db)
  | some userId =>
    match (db.cartItems.filter (fun ci => ci.userId == userId && ci.itemId == itemId)).head? with
    | some existingCartItem =>
      match db.updateCartItemById existingCartItem.id
          (fun ci => { ci with quantity := existingCartItem.quantity + 1 }) with
      | .error e => (.error e, db)
      | .ok (ci, db2) => (.ok ci, db2)
    | none =>
      let newCartItem : CartItem :=
        { id := genId db.nextId, userId := userId, itemId := itemId, quantity := 1 }
      (.ok newCartItem,
        { db with cartItems := db.cartItems ++ [newCartItem], nextId := db.nextId + 1 })

/-- The `removeFromCart` resolver.  The ownership test is
`cartItem.user.id !== ctx.request.userId`: an unset caller identity
(`undefined`) never equals a string id, so it fails the test. -/
def removeFromCart (cartItemId : String) (req : Request) (db : DB) :
    (Except String CartItem) × DB :=
  match db.cartItemById cartItemId with
  | none => (.error "No Cart Item Found!", db)
  | some cartItem =>
    if some cartItem.userId != req.userId then
      (.error "Cheating :)", db)
    else
      db.deleteCartItemWhere cartItemId

/-- The `updateItem` resolver.  It copies `args`, deletes the `id` key from
the copy, and updates the item selected by `args.id` with the remaining
fields.  It receives the request identity like every resolver but never reads
it: the source performs no authorization check. -/
def updateItem (args : List (String × String)) (_req : Request) (db : DB) :
    (Except String Item) × DB :=
  let updates := deleteKey "id" args
  db.updateItemWhere (lookupKey "id" args) updates

/-- The `deleteItem` resolver.  The item lookup's result is bound but never
inspected (the ownership check is an unimplemented TODO in the source); the
delete is issued unconditionally. -/
def deleteItem (itemId : String) (_req : Request) (db : DB) :
    (Except String Item) × DB :=
  let _item := db.itemById itemId
  db.deleteItemWhere itemId

/-- The cart row addToCart's create path inserts: fresh id from the store's
counter, the caller and item, and the store's default quantity. -/
def newCart (n : Nat) (uid : String) (itemId : String) (q : Nat) : CartItem :=
  { id := genId n, userId := uid, itemId := itemId, quantity := q }

/-! Concrete fixtures used by the witness theorems. -/

/-- A stored bcrypt digest for the password `hunter2`. -/
def hash0 : BcryptHash := bcryptHash "hunter2" 10 0

/-- A concrete stored user. -/
def userA : User :=
  { id := "u1", email := "ann@example.com", name := "Ann", password := hash0,
    permissions := ["USER"], resetToken := none, resetTokenExpiry := none }

/-- A concrete admin user holding both capability labels. -/
def adminA : User :=
  { id := "u9", email := "root@example.com", name := "Root", password := hash0,
    permissions := ["USER", "ADMIN", "PERMISSIONUPDATE"], resetToken := none,
    resetTokenExpiry := none }

/-- A concrete stored item. -/
def itemA : Item :=
  { id := "i1", userId := some "u1",
    fields := [("title", "shoe"), ("price", "10")] }

/-- A concrete stored cart item owned by `u1`. -/
def cartA : CartItem :=
  { id := "c1", userId := "u1", itemId := "i1", quantity := 3 }

/-- The empty store. -/
def dbEmpty : DB := { users := [], items := [], cartItems := [], nextId := 0 }

/-- A concrete store populated with the fixtures above. -/
def dbA : DB :=
  { users := [userA, adminA], items := [itemA], cartItems := [cartA], nextId := 5 }

/-! Helper lemmas about the first-match list operations of the database
model. -/

theorem updateFirst_eq_none {p : α → Bool} {f : α → α} {l : List α} :
    updateFirst p f l = none ↔ l.find? p = none := by
  induction l with
  | nil => simp [updateFirst]
  | cons x xs ih =>
    by_cases hx : p x
    · simp [updateFirst, hx, List.find?_cons_of_pos _ hx]
    · rw [List.find?_cons_of_neg _ hx, ← ih]
      simp only [updateFirst, Bool.not_eq_true] at hx ⊢
      rw [hx]
      cases updateFirst p f xs <;> simp

theorem find?_append_neg {p : α → Bool} {l₁ l₂ : List α}
    (h : ∀ y ∈ l₁, p y = false) : (l₁ ++ l₂).find? p = l₂.find? p := by
  induction l₁ with
  | nil => rfl
  | cons x xs ih =>
    have hx : p x = false := h x (List.mem_cons_self x xs)
    rw [List.cons_append, List.find?_cons_of_neg _ (by simp [hx])]
    exact ih (fun y hy => h y (List.mem_cons_of_mem x hy))

theorem find?_decomp {p : α → Bool} {l : List α} {x : α}
    (h : l.find? p = some x) :
    ∃ l₁ l₂, l = l₁ ++ x :: l₂ ∧ (∀ y ∈ l₁, p y = false) ∧ p x = true := by
  induction l with
  | nil => simp at h
  | cons a as ih =>
    by_cases ha : p a
    · rw [List.find?_cons_of_pos _ ha] at h
      obtain rfl : a = x := by injection h
      exact ⟨[], as, rfl, by simp, ha⟩
    · rw [List.find?_cons_of_neg _ ha] at h
      obtain ⟨l₁, l₂, rfl, hl₁, hx⟩ := ih h
      exact ⟨a :: l₁, l₂, rfl,
        fun y hy => by
          rcases List.mem_cons.mp hy with rfl | hy
          · exact Bool.eq_false_iff.mpr ha
          · exact hl₁ y hy,
        hx⟩

theorem updateFirst_append_neg {p : α → Bool} {f : α → α} {l₁ l₂ : List α}
    (h : ∀ y ∈ l₁, p y = false) :
    updateFirst p f (l₁ ++ l₂) =
      (updateFirst p f l₂).map (fun yl => (yl.1, l₁ ++ yl.2)) := by
  induction l₁ with
  | nil =>
    simp only [List.nil_append]
    cases h2 : updateFirst p f l₂ <;> simp
  | cons x xs ih =>
    have hx : p x = false := h x (List.mem_cons_self x xs)
    rw [List.cons_append]
    simp only [updateFirst, hx]
    rw [ih (fun y hy => h y (List.mem_cons_of_mem x hy))]
    cases updateFirst p f l₂ <;> simp

theorem updateFirst_cons_pos {p : α → Bool} {f : α → α} {x : α} {l : List α}
    (h : p x = true) : updateFirst p f (x :: l) = some (f x, f x :: l) := by
  simp [updateFirst, h]

theorem updateFirst_of_find? {p : α → Bool} {f : α → α} {l : List α} {x : α}
    (h : l.find? p = some x) :
    ∃ l₁ l₂, l = l₁ ++ x :: l₂ ∧ (∀ y ∈ l₁, p y = false) ∧
      updateFirst p f l = some (f x, l₁ ++ f x :: l₂) := by
  obtain ⟨l₁, l₂, rfl, hl₁, hx⟩ := find?_decomp h
  exact ⟨l₁, l₂, rfl, hl₁, by rw [updateFirst_append_neg hl₁, updateFirst_cons_pos hx]; rfl⟩

theorem find?_updateFirst {p : α → Bool} {f : α → α} {l : List α} {x : α}
    (h : l.find? p = some x) (hf : p (f x) = true) :
    ∃ l', updateFirst p f l = some (f x, l') ∧ l'.find? p = some (f x) := by
  obtain ⟨l₁, l₂, rfl, hl₁, hu⟩ := updateFirst_of_find? (f := f) h
  exact ⟨l₁ ++ f x :: l₂, hu, by
    rw [find?_append_neg hl₁, List.find?_cons_of_pos _ hf]⟩

theorem removeFirst_eq_none {p : α → Bool} {l : List α} :
    removeFirst p l = none ↔ l.find? p = none := by
  induction l with
  | nil => simp [removeFirst]
  | cons x xs ih =>
    by_cases hx : p x
    · simp [removeFirst, hx, List.find?_cons_of_pos _ hx]
    · rw [List.find?_cons_of_neg _ hx, ← ih]
      simp only [removeFirst, Bool.not_eq_true] at hx ⊢
      rw [hx]
      cases removeFirst p xs <;> simp

theorem hexEncode_length (bs : List Nat) :
    (hexEncode bs).length = 2 * bs.length := by
  induction bs with
  | nil => rfl
  | cons b bs ih =>
    simp only [hexEncode, String.length_append, ih, List.length_cons]
    have : (byteToHex b).length = 2 := rfl
    omega

/-! Claim theorems. -/

/-- C2: for every signup call, the lowercasing of the email argument has no
effect — the User record handed to the database create carries the email
exactly as supplied (not lowercased), the password replaced by its salted
bcrypt hash with cost factor 10, and permissions exactly `{USER}`. -/
theorem signup_email_not_lowercased (args : SignupArgs) (secret : String)
    (salt : Nat) (db : DB) :
    (signup args secret salt db).1.1.email = args.email ∧
    (signup args secret salt db).1.1.password = bcryptHash args.password 10 salt ∧
    (signup args secret salt db).1.1.permissions = ["USER"] ∧
    (signup args secret salt db).2.users =
      db.users ++ [(signup args secret salt db).1.1] :=
  ⟨rfl, rfl, rfl, rfl⟩

/-- C7: signin fails with the not-found error when no user has the email,
fails with `Invalid Password!` (and, the cookie being part of the success
value only, sets no cookie) when the password does not verify, and on success
returns the matching user together with an httpOnly session cookie whose
embedded userId is that user's id. -/
theorem signin_errors_and_cookie (email password secret : String) (db : DB) :
    (db.userByEmail email = none →
       signin email password secret db =
         .error ("No such user found for email " ++ email)) ∧
    (∀ u, db.userByEmail email = some u →
       (bcryptCompare password u.password = false →
          signin email password secret db = .error "Invalid Password!") ∧
       (bcryptCompare password u.password = true →
          signin email password secret db = .ok (u, sessionCookie u.id secret) ∧
          (sessionCookie u.id secret).value.userId = u.id ∧
          (sessionCookie u.id secret).httpOnly = true)) := by
  refine ⟨fun h => by simp [signin, h], fun u hu => ⟨fun hb => ?_, fun hb => ?_⟩⟩
  · simp [signin, hu, hb]
  · exact ⟨by simp [signin, hu, hb], rfl, rfl⟩

/-- Witness for C7 at a concrete store: wrong password is rejected, the right
password signs in and the cookie embeds the user's id. -/
theorem signin_errors_and_cookie_witness :
    signin "ann@example.com" "wrong" "s3cret" dbA = .error "Invalid Password!" ∧
    signin "ann@example.com" "hunter2" "s3cret" dbA =
      .ok (userA, sessionCookie "u1" "s3cret") := by
  constructor
  · exact ((signin_errors_and_cookie "ann@example.com" "wrong" "s3cret" dbA).2
      userA (by decide)).1 (by decide)
  · exact (((signin_errors_and_cookie "ann@example.com" "hunter2" "s3cret" dbA).2
      userA (by decide)).2 (by decide)).1

/-- C9: deleteItem never inspects the result of its initial lookup — for every
store it behaves exactly as the bare database delete call, so with a
nonexistent id (lookup yields nothing) the delete is still issued and the only
failure is the database delete error. -/
theorem deleteItem_ignores_lookup (itemId : String) (req : Request) (db : DB)
    (h : db.itemById itemId = none) :
    deleteItem itemId req db = db.deleteItemWhere itemId ∧
    deleteItem itemId req db =
      (.error "No Node for the model Item with value found", db) := by
  refine ⟨rfl, ?_⟩
  have hr : removeFirst (fun it : Item => it.id == itemId) db.items = none :=
    removeFirst_eq_none.mpr h
  simp [deleteItem, DB.deleteItemWhere, hr]

/-- Witness for C9: deleting a nonexistent id on a concrete store issues the
delete and surfaces only the database delete error. -/
theorem deleteItem_ignores_lookup_witness :
    deleteItem "zzz" ⟨some "u1"⟩ dbA = dbA.deleteItemWhere "zzz" ∧
    deleteItem "zzz" ⟨some "u1"⟩ dbA =
      (.error "No Node for the model Item with value found", dbA) :=
  deleteItem_ignores_lookup "zzz" ⟨some "u1"⟩ dbA (by decide)

/-- C10: removeFromCart with no caller identity on an existing cart item fails
with the ownership error `Cheating :)` (an unset id never equals the owner's
id) rather than any authentication-required error, leaves the store untouched,
and never issues the delete. -/
theorem removeFromCart_unauthenticated (cid : String) (db : DB) (ci : CartItem)
    (h : db.cartItemById cid = some ci) :
    removeFromCart cid ⟨none⟩ db = (.error "Cheating :)", db) := by
  simp [removeFromCart, h]

/-- Witness for C10 at a concrete store holding one cart item. -/
theorem removeFromCart_unauthenticated_witness :
    removeFromCart "c1" ⟨none⟩ dbA = (.error "Cheating :)", dbA) :=
  removeFromCart_unauthenticated "c1" dbA cartA (by decide)

/-- C8: updateItem performs no authorization or ownership check for any
caller (its result is the same for every request identity, including an
absent one), and the update payload sent to the database is exactly the
arguments minus the `id` field, applied to the item whose id equals
`args.id`; the updated item is returned. -/
theorem updateItem_no_auth_erases_id (args : List (String × String))
    (req req2 : Request) (db : DB) :
    updateItem args req db = updateItem args req2 db ∧
    updateItem args req db =
      db.updateItemWhere (lookupKey "id" args) (deleteKey "id" args) ∧
    (∀ id it, lookupKey "id" args = some id →
       db.items.find? (fun x => x.id == id) = some it →
       ∃ db2, updateItem args req db =
           (.ok { it with fields := applyData it.fields (deleteKey "id" args) }, db2) ∧
         db2.items.find? (fun x => x.id == id) =
           some { it with fields := applyData it.fields (deleteKey "id" args) }) := by
  refine ⟨rfl, rfl, fun id it hid hfind => ?_⟩
  have hp0 : (it.id == id) = true :=
    List.find?_some (p := fun x : Item => x.id == id) hfind
  have hp : ((fun x : Item => x.id == id)
      { it with fields := applyData it.fields (deleteKey "id" args) }) = true := hp0
  obtain ⟨l2, hu, hf⟩ := find?_updateFirst
    (f := fun x : Item => { x with fields := applyData x.fields (deleteKey "id" args) })
    hfind hp
  exact ⟨{ db with items := l2 }, by simp [updateItem, DB.updateItemWhere, hid, hu], hf⟩

/-- Witness for C8 at a concrete store: a title update with no caller
identity applies the payload minus `id` to the matching item. -/
theorem updateItem_no_auth_erases_id_witness :
    updateItem [("id", "i1"), ("title", "boot")] ⟨none⟩ dbA =
      updateItem [("id", "i1"), ("title", "boot")] ⟨some "u2"⟩ dbA ∧
    ∃ db2, updateItem [("id", "i1"), ("title", "boot")] ⟨none⟩ dbA =
        (.ok { itemA with
                fields := applyData itemA.fields
                  (deleteKey "id" [("id", "i1"), ("title", "boot")]) }, db2) ∧
      db2.items.find? (fun x => x.id == "i1") =
        some { itemA with
                fields := applyData itemA.fields
                  (deleteKey "id" [("id", "i1"), ("title", "boot")]) } :=
  ⟨(updateItem_no_auth_erases_id [("id", "i1"), ("title", "boot")]
      ⟨none⟩ ⟨some "u2"⟩ dbA).1,
   (updateItem_no_auth_erases_id [("id", "i1"), ("title", "boot")]
      ⟨none⟩ ⟨some "u2"⟩ dbA).2.2 "i1" itemA (by decide) (by decide)⟩

/-- C6: removeFromCart fails with `No Cart Item Found!` when the id matches
no cart item; fails with the ownership error `Cheating :)` — leaving the
store unchanged, the cart item still present — when the caller is not the
owner; and issues the database delete exactly when the caller owns the cart
item. -/
theorem removeFromCart_ownership_cases (cid : String) (req : Request) (db : DB) :
    (db.cartItemById cid = none →
       removeFromCart cid req db = (.error "No Cart Item Found!", db)) ∧
    (∀ ci, db.cartItemById cid = some ci →
       (req.userId ≠ some ci.userId →
          removeFromCart cid req db = (.error "Cheating :)", db) ∧
          ci ∈ db.cartItems) ∧
       (req.userId = some ci.userId →
          removeFromCart cid req db = db.deleteCartItemWhere cid)) := by
  refine ⟨fun h => by simp [removeFromCart, h], fun ci hci => ⟨fun hne => ?_, fun heq => ?_⟩⟩
  · have hb : (some ci.userId != req.userId) = true :=
      bne_iff_ne.mpr (fun e => hne e.symm)
    exact ⟨by simp [removeFromCart, hci, hb], List.mem_of_find?_eq_some hci⟩
  · have hb : (some ci.userId != req.userId) = false := by simp [heq]
    simp [removeFromCart, hci, hb]

/-- Witness for C6 at a concrete store: a missing id is not found, a
non-owner is rejected with the item still stored, and the owner's call is
the database delete. -/
theorem removeFromCart_ownership_cases_witness :
    removeFromCart "nope" ⟨some "u1"⟩ dbA = (.error "No Cart Item Found!", dbA) ∧
    (removeFromCart "c1" ⟨some "u2"⟩ dbA = (.error "Cheating :)", dbA) ∧
      cartA ∈ dbA.cartItems) ∧
    removeFromCart "c1" ⟨some "u1"⟩ dbA = dbA.deleteCartItemWhere "c1" :=
  ⟨(removeFromCart_ownership_cases "nope" ⟨some "u1"⟩ dbA).1 (by decide),
   ((removeFromCart_ownership_cases "c1" ⟨some "u2"⟩ dbA).2 cartA (by decide)).1
     (by decide),
   ((removeFromCart_ownership_cases "c1" ⟨some "u1"⟩ dbA).2 cartA (by decide)).2
     rfl⟩

theorem hasPermission_pair (u : User) (a b : String) :
    hasPermission u [a, b] =
      (if a ∈ u.permissions ∧ b ∈ u.permissions then .ok ()
       else .error "You do not have sufficient permissions") := by
  by_cases ha : a ∈ u.permissions <;> by_cases hb : b ∈ u.permissions <;>
    simp [hasPermission, List.contains, ha, hb]

/-- C1: with a signed-in caller, updatePermissions overwrites the target
user's permission set only if the caller holds both the `ADMIN` and the
`PERMISSIONUPDATE` labels, and fails with the permission error — leaving the
store unchanged — whenever the caller lacks either one. -/
theorem updatePermissions_requires_both (targetId : String)
    (perms : List String) (uid : String) (db : DB) (cu : User)
    (hcu : db.userById uid = some cu) :
    (("ADMIN" ∈ cu.permissions ∧ "PERMISSIONUPDATE" ∈ cu.permissions) →
       ∀ tgt, db.userById targetId = some tgt →
         ∃ db2, updatePermissions targetId perms ⟨some uid⟩ db =
             (.ok { tgt with permissions := perms }, db2) ∧
           db2.userById targetId = some { tgt with permissions := perms }) ∧
    (¬("ADMIN" ∈ cu.permissions ∧ "PERMISSIONUPDATE" ∈ cu.permissions) →
       updatePermissions targetId perms ⟨some uid⟩ db =
         (.error "You do not have sufficient permissions", db)) := by
  constructor
  · rintro ⟨hA, hP⟩ tgt htgt
    have hp0 : (tgt.id == targetId) = true :=
      List.find?_some (p := fun u : User => u.id == targetId) htgt
    have hpf : ((fun u : User => u.id == targetId)
        { tgt with permissions := perms }) = true := hp0
    obtain ⟨l2, hu, hf⟩ := find?_updateFirst
      (f := fun u : User => { u with permissions := perms }) htgt hpf
    refine ⟨{ db with users := l2 }, ?_, hf⟩
    simp [updatePermissions, hcu, hasPermission_pair, hA, hP,
      DB.updateUserById, hu]
  · intro h
    simp [updatePermissions, hcu, hasPermission_pair, if_neg h]

/-- Witness for C1 at a concrete store: the admin holding both labels
overwrites a target's permissions; a caller with only `USER` is rejected. -/
theorem updatePermissions_requires_both_witness :
    (∃ db2, updatePermissions "u1" ["USER", "ADMIN"] ⟨some "u9"⟩ dbA =
        (.ok { userA with permissions := ["USER", "ADMIN"] }, db2) ∧
      db2.userById "u1" = some { userA with permissions := ["USER", "ADMIN"] }) ∧
    updatePermissions "u9" ["USER", "ADMIN"] ⟨some "u1"⟩ dbA =
      (.error "You do not have sufficient permissions", dbA) :=
  ⟨(updatePermissions_requires_both "u1" ["USER", "ADMIN"] "u9" dbA adminA
      (by decide)).1 ⟨by decide, by decide⟩ userA (by decide),
   (updatePermissions_requires_both "u9" ["USER", "ADMIN"] "u1" dbA userA
      (by decide)).2 (by decide)⟩

/-- C3: with matching password and confirmPassword, resetPassword's token
check accepts a user exactly when the stored resetToken equals the supplied
token and the stored resetTokenExpiry is at least the current time minus one
hour (the window tracks the time of the reset attempt), and it fails with the
invalid-or-expired error when no user matches. -/
theorem resetPassword_window (args : ResetArgs) (secret : String) (salt : Nat)
    (now : Int) (db : DB) (hpw : args.password = args.confirmPassword) :
    (∀ u : User, resetWhere args.resetToken now u = true ↔
       (u.resetToken = some args.resetToken ∧
        ∃ e, u.resetTokenExpiry = some e ∧ now - 3600000 ≤ e)) ∧
    ((∀ u ∈ db.users, resetWhere args.resetToken now u = false) →
       resetPassword args secret salt now db =
         (.error "This token is either invalid or expired!", db)) := by
  constructor
  · intro u
    cases hre : u.resetTokenExpiry with
    | none => simp [resetWhere, hre]
    | some e => simp [resetWhere, hre]
  · intro h
    have hpwb : (args.password != args.confirmPassword) = false := by simp [hpw]
    have hfil : db.users.filter (resetWhere args.resetToken now) = [] :=
      List.filter_eq_nil_iff.mpr (fun u hu => by simp [h u hu])
    simp [resetPassword, hpwb, hfil]

/-- Witness for C3: on a concrete store where no stored token matches, a
reset attempt with matching passwords is rejected as invalid or expired. -/
theorem resetPassword_window_witness :
    resetPassword ⟨"deadbeef", "newpw", "newpw"⟩ "s3cret" 0 5000000 dbA =
      (.error "This token is either invalid or expired!", dbA) :=
  (resetPassword_window ⟨"deadbeef", "newpw", "newpw"⟩ "s3cret" 0 5000000 dbA
    rfl).2 (by decide)

/-- C5: for a signed-in user and an item not yet in their cart, calling
addToCart twice in sequence yields a single CartItem for that (user, item)
pair with quantity 2 — the second call finds the row created by the first and
increments its quantity by exactly 1 instead of creating a new record, so the
store gains exactly one row. -/
theorem addToCart_twice_quantity_two (uid itemId : String) (db : DB)
    (hnone : ∀ ci ∈ db.cartItems, ¬(ci.userId = uid ∧ ci.itemId = itemId))
    (hfresh : ∀ ci ∈ db.cartItems, ci.id ≠ genId db.nextId) :
    addToCart itemId ⟨some uid⟩ (addToCart itemId ⟨some uid⟩ db).2 =
      (.ok (newCart db.nextId uid itemId 2),
       { db with cartItems := db.cartItems ++ [newCart db.nextId uid itemId 2],
                 nextId := db.nextId + 1 }) ∧
    (addToCart itemId ⟨some uid⟩ (addToCart itemId ⟨some uid⟩ db).2).2.cartItems.filter
        (fun ci => ci.userId == uid && ci.itemId == itemId) =
      [newCart db.nextId uid itemId 2] := by
  have hpredF : ∀ ci ∈ db.cartItems,
      (ci.userId == uid && ci.itemId == itemId) = false := by
    intro ci hci
    cases hb : (ci.userId == uid && ci.itemId == itemId) with
    | false => rfl
    | true =>
      have hb2 : ci.userId = uid ∧ ci.itemId = itemId := by simpa using hb
      exact absurd hb2 (hnone ci hci)
  have hfil1 : db.cartItems.filter
      (fun ci => ci.userId == uid && ci.itemId == itemId) = [] :=
    List.filter_eq_nil_iff.mpr (fun ci hci => by simp [hpredF ci hci])
  have h1 : addToCart itemId ⟨some uid⟩ db =
      (.ok (newCart db.nextId uid itemId 1),
       { db with cartItems := db.cartItems ++ [newCart db.nextId uid itemId 1],
                 nextId := db.nextId + 1 }) := by
    simp [addToCart, hfil1, newCart]
  have hfil2 : (db.cartItems ++ [newCart db.nextId uid itemId 1]).filter
      (fun ci => ci.userId == uid && ci.itemId == itemId) =
      [newCart db.nextId uid itemId 1] := by
    rw [List.filter_append, hfil1]
    simp [newCart]
  have hpre2 : ∀ y ∈ db.cartItems,
      (y.id == (newCart db.nextId uid itemId 1).id) = false := by
    intro y hy
    exact beq_eq_false_iff_ne.mpr (hfresh y hy)
  have hu2 : updateFirst
      (fun ci : CartItem => ci.id == (newCart db.nextId uid itemId 1).id)
      (fun ci : CartItem =>
        { ci with quantity := (newCart db.nextId uid itemId 1).quantity + 1 })
      (db.cartItems ++ [newCart db.nextId uid itemId 1]) =
      some (newCart db.nextId uid itemId 2,
        db.cartItems ++ [newCart db.nextId uid itemId 2]) := by
    rw [updateFirst_append_neg hpre2, updateFirst_cons_pos (by simp)]
    rfl
  have h2 : addToCart itemId ⟨some uid⟩
      { db with cartItems := db.cartItems ++ [newCart db.nextId uid itemId 1],
                nextId := db.nextId + 1 } =
      (.ok (newCart db.nextId uid itemId 2),
       { db with cartItems := db.cartItems ++ [newCart db.nextId uid itemId 2],
                 nextId := db.nextId + 1 }) := by
    simp [addToCart, DB.updateCartItemById, hfil2, hu2]
  have hcomb : addToCart itemId ⟨some uid⟩ (addToCart itemId ⟨some uid⟩ db).2 =
      (.ok (newCart db.nextId uid itemId 2),
       { db with cartItems := db.cartItems ++ [newCart db.nextId uid itemId 2],
                 nextId := db.nextId + 1 }) := by
    rw [h1]
    exact h2
  refine ⟨hcomb, ?_⟩
  rw [hcomb]
  show (db.cartItems ++ [newCart db.nextId uid itemId 2]).filter
      (fun ci => ci.userId == uid && ci.itemId == itemId) =
    [newCart db.nextId uid itemId 2]
  rw [List.filter_append, hfil1]
  simp [newCart]

/-- Witness for C5: two additions of a fresh item to an empty cart produce
one row with quantity 2. -/
theorem addToCart_twice_quantity_two_witness :
    addToCart "i1" ⟨some "u1"⟩ (addToCart "i1" ⟨some "u1"⟩ dbEmpty).2 =
      (.ok (newCart 0 "u1" "i1" 2),
       { dbEmpty with cartItems := [newCart 0 "u1" "i1" 2], nextId := 1 }) :=
  (addToCart_twice_quantity_two "u1" "i1" dbEmpty
    (by intro ci hci; simp [dbEmpty] at hci)
    (by intro ci hci; simp [dbEmpty] at hci)).1

/-- C4: for an existing user, requestReset — which stores the 20-byte hex
reset token (40 hex characters) and an expiry of the current time plus one
hour on that user — followed immediately by resetPassword with the issued
token and equal password/confirmPassword succeeds, replaces the stored
password with the hash of the new password, and clears both resetToken and
resetTokenExpiry.  The token-freshness hypothesis says the random token
collides with no stored one. -/
theorem requestReset_then_resetPassword (email newPw secret : String)
    (randBytes : List Nat) (salt : Nat) (now : Int) (db : DB) (user : User)
    (hlen : randBytes.length = 20)
    (hfind : db.userByEmail email = some user)
    (hfresh : ∀ u ∈ db.users, u.resetToken ≠ some (hexEncode randBytes)) :
    (requestReset email randBytes now db).1 = .ok "Thank you!" ∧
    (hexEncode randBytes).length = 40 ∧
    (requestReset email randBytes now db).2.userByEmail email =
      some { user with resetToken := some (hexEncode randBytes),
                       resetTokenExpiry := some (now + 3600000) } ∧
    (resetPassword ⟨hexEncode randBytes, newPw, newPw⟩ secret salt now
        (requestReset email randBytes now db).2).1 =
      .ok ({ user with password := bcryptHash newPw 10 salt,
                       resetToken := none, resetTokenExpiry := none },
           sessionCookie user.id secret) ∧
    (resetPassword ⟨hexEncode randBytes, newPw, newPw⟩ secret salt now
        (requestReset email randBytes now db).2).2.userByEmail email =
      some { user with password := bcryptHash newPw 10 salt,
                       resetToken := none, resetTokenExpiry := none } := by
  have hfind2 : db.users.find? (fun u => u.email == email) = some user := hfind
  have hemail : user.email = email :=
    eq_of_beq (List.find?_some (p := fun u : User => u.email == email) hfind2)
  obtain ⟨l₁, l₂, hsplit, hl₁, hu1⟩ := updateFirst_of_find?
    (f := fun u : User =>
      { u with resetToken := some (hexEncode randBytes),
               resetTokenExpiry := some (now + 3600000) }) hfind2
  have hreq : requestReset email randBytes now db =
      (.ok "Thank you!",
       { db with users := l₁ ++
           { user with resetToken := some (hexEncode randBytes),
                       resetTokenExpiry := some (now + 3600000) } :: l₂ }) := by
    simp [requestReset, hfind, DB.updateUserByEmail, hu1]
  have hdb1 : (requestReset email randBytes now db).2.userByEmail email =
      some { user with resetToken := some (hexEncode randBytes),
                       resetTokenExpiry := some (now + 3600000) } := by
    rw [hreq]
    show (l₁ ++
        { user with resetToken := some (hexEncode randBytes),
                    resetTokenExpiry := some (now + 3600000) } :: l₂).find?
      (fun u => u.email == email) = _
    rw [find?_append_neg hl₁, List.find?_cons_of_pos _ (by simp [hemail])]
  have hl₁w : ∀ y ∈ l₁, resetWhere (hexEncode randBytes) now y = false := by
    intro y hy
    have hmem : y ∈ db.users := by
      rw [hsplit]
      exact List.mem_append_left _ hy
    have hb : (y.resetToken == some (hexEncode randBytes)) = false :=
      beq_eq_false_iff_ne.mpr (hfresh y hmem)
    simp [resetWhere, hb]
  have hw1 : resetWhere (hexEncode randBytes) now
      { user with resetToken := some (hexEncode randBytes),
                  resetTokenExpiry := some (now + 3600000) } = true := by
    simp [resetWhere]
    omega
  have hf1 : List.find? (resetWhere (hexEncode randBytes) now) l₁ = none :=
    List.find?_eq_none.mpr (fun y hy => by simp [hl₁w y hy])
  have hf2 : List.find? (resetWhere (hexEncode randBytes) now)
      ({ user with resetToken := some (hexEncode randBytes),
                   resetTokenExpiry := some (now + 3600000) } :: l₂) =
      some { user with resetToken := some (hexEncode randBytes),
                       resetTokenExpiry := some (now + 3600000) } :=
    List.find?_cons_of_pos _ hw1
  have hl₁e : ∀ y ∈ l₁, (y.email == user.email) = false := by
    intro y hy
    rw [hemail]
    exact hl₁ y hy
  have hu3 : updateFirst (fun u : User => u.email == user.email)
      (fun u : User =>
        { u with password := bcryptHash newPw 10 salt,
                 resetToken := none, resetTokenExpiry := none })
      (l₁ ++
        { user with resetToken := some (hexEncode randBytes),
                    resetTokenExpiry := some (now + 3600000) } :: l₂) =
      some ({ user with password := bcryptHash newPw 10 salt,
                        resetToken := none, resetTokenExpiry := none },
        l₁ ++
          { user with password := bcryptHash newPw 10 salt,
                      resetToken := none, resetTokenExpiry := none } :: l₂) := by
    rw [updateFirst_append_neg hl₁e, updateFirst_cons_pos (by simp)]
    rfl
  have hres : resetPassword ⟨hexEncode randBytes, newPw, newPw⟩ secret salt now
      (requestReset email randBytes now db).2 =
      (.ok ({ user with password := bcryptHash newPw 10 salt,
                        resetToken := none, resetTokenExpiry := none },
            sessionCookie user.id secret),
       { db with users := l₁ ++
           { user with password := bcryptHash newPw 10 salt,
                       resetToken := none, resetTokenExpiry := none } :: l₂ }) := by
    rw [hreq]
    simp [resetPassword, DB.updateUserByEmail, hf1, hf2, hu3]
  refine ⟨by rw [hreq], by rw [hexEncode_length, hlen], hdb1, by rw [hres], ?_⟩
  rw [hres]
  show (l₁ ++
      { user with password := bcryptHash newPw 10 salt,
                  resetToken := none, resetTokenExpiry := none } :: l₂).find?
    (fun u => u.email == email) = _
  rw [find?_append_neg hl₁, List.find?_cons_of_pos _ (by simp [hemail])]

/-- Witness for C4 at a concrete store and a concrete 20-byte random token:
the request succeeds and the immediate reset replaces the password and
clears the reset fields. -/
theorem requestReset_then_resetPassword_witness :
    (requestReset "ann@example.com" (List.replicate 20 0) 1000000 dbA).1 =
      .ok "Thank you!" ∧
    (resetPassword ⟨hexEncode (List.replicate 20 0), "newpw", "newpw"⟩
        "s3cret" 7 1000000
        (requestReset "ann@example.com" (List.replicate 20 0) 1000000 dbA).2).1 =
      .ok ({ userA with password := bcryptHash "newpw" 10 7,
                        resetToken := none, resetTokenExpiry := none },
           sessionCookie userA.id "s3cret") := by
  have T := requestReset_then_resetPassword "ann@example.com" "newpw" "s3cret"
    (List.replicate 20 0) 7 1000000 dbA userA (by decide) (by decide) (by decide)
  exact ⟨T.1, T.2.2.2.1⟩

end SickFits
